import Mathlib

/-!
Verification of the Seurat rendering engine core (shader/material binding
model, resource tables, scene-graph traversal, frame-loop error handling,
resize logic) through a shallow embedding of the Rust source in Lean 4.

Opaque GPU-side handles (wgpu buffers, texture views, samplers, devices)
are modelled as natural-number identifiers; the embedding keeps the data
and control flow of the source functions.
-/

/-- Shader stage visibility bitmask (wgpu::ShaderStages). -/
abbrev ShaderStages := Nat

/-- wgpu::ShaderStages::VERTEX. -/
def ShaderStages.VERTEX : ShaderStages := 1

/-- wgpu::ShaderStages::FRAGMENT. -/
def ShaderStages.FRAGMENT : ShaderStages := 2

/-- wgpu::ShaderStages::COMPUTE. -/
def ShaderStages.COMPUTE : ShaderStages := 4

/-- wgpu::ShaderStages::VERTEX_FRAGMENT. -/
def ShaderStages.VERTEX_FRAGMENT : ShaderStages := 3

/-- wgpu::BufferBindingType. -/
inductive BufferBindingType where
  | uniform
  | storage (readOnly : Bool)
deriving DecidableEq, Repr

/-- wgpu::TextureViewDimension. -/
inductive TextureViewDimension where
  | d1
  | d2
  | d2Array
  | cube
  | cubeArray
  | d3
deriving DecidableEq, Repr

/-- wgpu::TextureSampleType. -/
inductive TextureSampleType where
  | float (filterable : Bool)
  | depth
  | sint
  | uint
deriving DecidableEq, Repr

/-- wgpu::TextureFormat (the constructors used by the engine). -/
inductive TextureFormat where
  | rgba16Float
  | rgba32Float
  | bgra8UnormSrgb
  | rgba8Unorm
  | depth32Float
deriving DecidableEq, Repr

/-- wgpu::CompareFunction. -/
inductive CompareFunction where
  | never
  | less
  | equal
  | lessEqual
  | greater
  | notEqual
  | greaterEqual
  | always
deriving DecidableEq, Repr

/-- ShaderBindingBuffer from src/shader.rs. -/
structure ShaderBindingBuffer where
  visible_in_stages : ShaderStages
  uniform_or_storage : BufferBindingType
  has_dynamic_offset : Bool
  min_binding_size : Option Nat
deriving DecidableEq, Repr

/-- Default for ShaderBindingBuffer (impl Default in src/shader.rs). -/
def ShaderBindingBuffer.default : ShaderBindingBuffer :=
  { visible_in_stages := ShaderStages.VERTEX_FRAGMENT
    uniform_or_storage := BufferBindingType.uniform
    has_dynamic_offset := false
    min_binding_size := none }

/-- ShaderBindingTexture from src/shader.rs. -/
structure ShaderBindingTexture where
  visible_in_stages : ShaderStages
  multisampled : Bool
  dimensions : TextureViewDimension
  sampled_value_data_type : TextureSampleType
deriving DecidableEq, Repr

/-- Default for ShaderBindingTexture (impl Default in src/shader.rs). -/
def ShaderBindingTexture.default : ShaderBindingTexture :=
  { visible_in_stages := ShaderStages.FRAGMENT
    multisampled := false
    dimensions := TextureViewDimension.d2
    sampled_value_data_type := TextureSampleType.float true }

/-- ShaderBinding enum from src/shader.rs. The `storageTexture` variant is
matched by src/material.rs as `ShaderBinding::StorageTexture(_, _)`; its
declaration (texture binding descriptor plus declared storage format, per the
spec data model) is missing from the copy of src/shader.rs in src/. -/
inductive ShaderBinding where
  | buffer (b : ShaderBindingBuffer)
  | texture (t : ShaderBindingTexture)
  | storageTexture (t : ShaderBindingTexture) (format : TextureFormat)
deriving DecidableEq, Repr

/-- wgpu::BindingType for bind group layout entries. -/
inductive BindingType where
  | buffer (ty : BufferBindingType) (hasDynamicOffset : Bool) (minBindingSize : Option Nat)
  | texture (multisampled : Bool) (viewDimension : TextureViewDimension) (sampleType : TextureSampleType)
  | sampler (comparison : Bool) (filtering : Bool)
  | storageTexture (viewDimension : TextureViewDimension) (format : TextureFormat)
deriving DecidableEq, Repr

/-- wgpu::BindGroupLayoutEntry. -/
structure BindGroupLayoutEntry where
  binding : Nat
  visibility : ShaderStages
  ty : BindingType
  count : Option Nat
deriving DecidableEq, Repr

/-- Worker for build_bind_group_layout_entries in src/shader.rs: the running
`binding_index` slot counter is threaded explicitly. The buffer and texture
arms are translated from src/shader.rs lines 102-151. The storage texture arm
is Modelled from the spec: the StorageTexture case of
build_bind_group_layout_entries is missing from the copy of src/shader.rs in
src/ (src/material.rs matches on the variant); per the spec it consumes one
binding slot carrying the texture binding descriptor and the declared
storage format. -/
def buildBindGroupLayoutEntriesAux : List ShaderBinding → Nat → List BindGroupLayoutEntry
  | [], _ => []
  | ShaderBinding.buffer buffer :: rest, bindingIndex =>
    { binding := bindingIndex
      visibility := buffer.visible_in_stages
      ty := BindingType.buffer buffer.uniform_or_storage buffer.has_dynamic_offset buffer.min_binding_size
      count := none } :: buildBindGroupLayoutEntriesAux rest (bindingIndex + 1)
  | ShaderBinding.texture texture :: rest, bindingIndex =>
    { binding := bindingIndex
      visibility := texture.visible_in_stages
      ty := BindingType.texture texture.multisampled texture.dimensions texture.sampled_value_data_type
      count := none } ::
    { binding := bindingIndex + 1
      visibility := texture.visible_in_stages
      ty := BindingType.sampler false (decide (texture.sampled_value_data_type = TextureSampleType.float true))
      count := none } :: buildBindGroupLayoutEntriesAux rest (bindingIndex + 2)
  | ShaderBinding.storageTexture texture format :: rest, bindingIndex =>
    { binding := bindingIndex
      visibility := texture.visible_in_stages
      ty := BindingType.storageTexture texture.dimensions format
      count := none } :: buildBindGroupLayoutEntriesAux rest (bindingIndex + 1)

/-- build_bind_group_layout_entries from src/shader.rs: binding slot numbers
start at 0. -/
def build_bind_group_layout_entries (bindings : List ShaderBinding) : List BindGroupLayoutEntry :=
  buildBindGroupLayoutEntriesAux bindings 0

/-- Number of binding slots one declared shader binding consumes (stated by
the spec: Buffer 1, Texture 2, StorageTexture 1). -/
def slotSize : ShaderBinding → Nat
  | ShaderBinding.buffer _ => 1
  | ShaderBinding.texture _ => 2
  | ShaderBinding.storageTexture _ _ => 1

/-- Texture from src/texture.rs: GPU texture, view and sampler handles. -/
structure Texture where
  texture : Nat
  view : Nat
  sampler : Nat
deriving DecidableEq, Repr

/-- MaterialDataBinding enum from src/material.rs. A wgpu::BufferBinding,
extra sampler and extra texture view are opaque GPU handles. -/
inductive MaterialDataBinding where
  | buffer (b : Nat)
  | texture (t : Texture)
  | sampleableDepthTexture (t : Texture) (sampler : Nat)
  | storageTexture (t : Texture) (view : Option Nat)
  | textureName (name : String)
deriving DecidableEq, Repr

/-- wgpu::BindingResource as used by src/material.rs. -/
inductive BindingResource where
  | buffer (b : Nat)
  | textureView (v : Nat)
  | sampler (s : Nat)
deriving DecidableEq, Repr

/-- wgpu::BindGroupEntry. -/
structure BindGroupEntry where
  binding : Nat
  resource : BindingResource
deriving DecidableEq, Repr

/-- The two panics material construction can hit in src/material.rs: the
explicit "Provided binding data for material ... does not match the shader
definition" panic (which names the material), the IndexMap indexing panic on
a missing texture name, and the IndexMap indexing panic in Material::new on a
missing shader name. -/
inductive MaterialError where
  | bindingMismatch (materialName : String)
  | missingTexture (textureName : String)
  | missingShader (shaderName : String)
deriving DecidableEq, Repr

/-- Insertion for the IndexMap resource tables of src/scene.rs
(LoadedResources). Modelled from the documented semantics of
indexmap::IndexMap::insert as used by the repository: an existing key keeps
its position and gets its value overwritten; a new key is appended at the
end. -/
def imInsert {K V : Type} [DecidableEq K] (m : List (K × V)) (k : K) (v : V) : List (K × V) :=
  if m.any (fun p => decide (p.1 = k)) then
    m.map (fun p => if p.1 = k then (k, v) else p)
  else
    m ++ [(k, v)]

/-- Lookup by key for the IndexMap resource tables (IndexMap::get /
the panicking Index operator; `none` models the panic): the value of the
first pair whose key matches. -/
def imGet {K V : Type} [DecidableEq K] (m : List (K × V)) (k : K) : Option V :=
  match m with
  | [] => none
  | p :: rest => if p.1 = k then some p.2 else imGet rest k

/-- Stable index of a key for the IndexMap resource tables
(IndexMap::get_index_of): the position of the first pair whose key
matches. -/
def imGetIndexOf {K V : Type} [DecidableEq K] (m : List (K × V)) (k : K) : Option Nat :=
  match m with
  | [] => none
  | p :: rest => if p.1 = k then some 0 else (imGetIndexOf rest k).map (fun i => i + 1)

/-- Positional access for the IndexMap resource tables
(IndexMap::get_index / the Index<usize> operator). -/
def imGetIndex {K V : Type} (m : List (K × V)) (i : Nat) : Option V :=
  (m.get? i).map (fun p => p.2)

/-- Shader from src/shader.rs: the GPU pipeline objects are opaque; the
bind group layout is the entry list built from the declared bindings. -/
structure ShaderModel where
  name : String
  bind_group_layout : List BindGroupLayoutEntry
  shader_bindings : List ShaderBinding
  includes_camera : Bool
  includes_lighting : Bool
deriving DecidableEq, Repr

/-- Material from src/material.rs: shader index, name, and the constructed
bind group (modelled by its entry list). -/
structure Material where
  shader_id : Nat
  name : String
  bind_group : List BindGroupEntry
deriving DecidableEq, Repr

/-- LoadedResources from src/scene.rs. Mesh and material values are not
needed by material construction; meshes are keyed by (file, object) string
pairs as in the source. -/
structure LoadedResources where
  shaders : List (String × ShaderModel)
  textures : List (String × Texture)
  materials : List (String × Material)
  meshes : List ((String × String) × Nat)
deriving Repr

/-- Worker for bind_group_entries in src/material.rs: walks the declared
shader bindings (paired with their enumerate() position `index`) while
threading the running `binding_index` slot counter; `data_bindings.get(index)`
is the positional access into the supplied data bindings. An `Except.error`
models the corresponding panic. -/
def bindGroupEntriesAux (materialName : String) (dataBindings : List MaterialDataBinding)
    (resources : LoadedResources) :
    List ShaderBinding → Nat → Nat → Except MaterialError (List BindGroupEntry)
  | [], _, _ => Except.ok []
  | ShaderBinding.buffer _ :: rest, index, bindingIndex =>
    match dataBindings.get? index with
    | some (MaterialDataBinding.buffer bufferBinding) =>
      (bindGroupEntriesAux materialName dataBindings resources rest (index + 1) (bindingIndex + 1)).map
        (fun tail => { binding := bindingIndex, resource := BindingResource.buffer bufferBinding } :: tail)
    | _ => Except.error (MaterialError.bindingMismatch materialName)
  | ShaderBinding.texture _ :: rest, index, bindingIndex =>
    match dataBindings.get? index with
    | some (MaterialDataBinding.texture texture) =>
      (bindGroupEntriesAux materialName dataBindings resources rest (index + 1) (bindingIndex + 2)).map
        (fun tail =>
          { binding := bindingIndex, resource := BindingResource.textureView texture.view } ::
          { binding := bindingIndex + 1, resource := BindingResource.sampler texture.sampler } :: tail)
    | some (MaterialDataBinding.sampleableDepthTexture texture sampler) =>
      (bindGroupEntriesAux materialName dataBindings resources rest (index + 1) (bindingIndex + 2)).map
        (fun tail =>
          { binding := bindingIndex, resource := BindingResource.textureView texture.view } ::
          { binding := bindingIndex + 1, resource := BindingResource.sampler sampler } :: tail)
    | some (MaterialDataBinding.storageTexture texture view) =>
      (bindGroupEntriesAux materialName dataBindings resources rest (index + 1) (bindingIndex + 2)).map
        (fun tail =>
          { binding := bindingIndex, resource := BindingResource.textureView (view.getD texture.view) } ::
          { binding := bindingIndex + 1, resource := BindingResource.sampler texture.sampler } :: tail)
    | some (MaterialDataBinding.textureName textureName) =>
      match imGet resources.textures textureName with
      | some texture =>
        (bindGroupEntriesAux materialName dataBindings resources rest (index + 1) (bindingIndex + 2)).map
          (fun tail =>
            { binding := bindingIndex, resource := BindingResource.textureView texture.view } ::
            { binding := bindingIndex + 1, resource := BindingResource.sampler texture.sampler } :: tail)
      | none => Except.error (MaterialError.missingTexture textureName)
    | _ => Except.error (MaterialError.bindingMismatch materialName)
  | ShaderBinding.storageTexture _ _ :: rest, index, bindingIndex =>
    match dataBindings.get? index with
    | some (MaterialDataBinding.texture texture) =>
      (bindGroupEntriesAux materialName dataBindings resources rest (index + 1) (bindingIndex + 1)).map
        (fun tail => { binding := bindingIndex, resource := BindingResource.textureView texture.view } :: tail)
    | some (MaterialDataBinding.sampleableDepthTexture texture _) =>
      (bindGroupEntriesAux materialName dataBindings resources rest (index + 1) (bindingIndex + 1)).map
        (fun tail => { binding := bindingIndex, resource := BindingResource.textureView texture.view } :: tail)
    | some (MaterialDataBinding.storageTexture texture view) =>
      (bindGroupEntriesAux materialName dataBindings resources rest (index + 1) (bindingIndex + 1)).map
        (fun tail => { binding := bindingIndex, resource := BindingResource.textureView (view.getD texture.view) } :: tail)
    | some (MaterialDataBinding.textureName textureName) =>
      match imGet resources.textures textureName with
      | some texture =>
        (bindGroupEntriesAux materialName dataBindings resources rest (index + 1) (bindingIndex + 1)).map
          (fun tail => { binding := bindingIndex, resource := BindingResource.textureView texture.view } :: tail)
      | none => Except.error (MaterialError.missingTexture textureName)
    | _ => Except.error (MaterialError.bindingMismatch materialName)

/-- bind_group_entries from src/material.rs lines 27-101. -/
def bind_group_entries (materialName : String) (shaderBindings : List ShaderBinding)
    (dataBindings : List MaterialDataBinding) (resources : LoadedResources) :
    Except MaterialError (List BindGroupEntry) :=
  bindGroupEntriesAux materialName dataBindings resources shaderBindings 0 0

/-- Material::new from src/material.rs lines 12-24: looks up the shader by
name (the IndexMap Index operator panics on a miss), records its stable
index, and builds the bind group. -/
def Material.new (materialName shaderName : String) (dataBindings : List MaterialDataBinding)
    (resources : LoadedResources) : Except MaterialError Material :=
  match imGet resources.shaders shaderName, imGetIndexOf resources.shaders shaderName with
  | some shader, some shaderId =>
    (bind_group_entries materialName shader.shader_bindings dataBindings resources).map
      (fun entries => { shader_id := shaderId, name := materialName, bind_group := entries })
  | _, _ => Except.error (MaterialError.missingShader shaderName)

/-- A supplied data binding is accepted for a texture-slot (Texture or
StorageTexture) declared entry, including resolvability of a name lookup.
Mirrors which arms of bind_group_entries succeed. -/
def textureDataOk (resources : LoadedResources) : MaterialDataBinding → Bool
  | MaterialDataBinding.buffer _ => false
  | MaterialDataBinding.texture _ => true
  | MaterialDataBinding.sampleableDepthTexture _ _ => true
  | MaterialDataBinding.storageTexture _ _ => true
  | MaterialDataBinding.textureName n => (imGet resources.textures n).isSome

/-- A declared shader binding accepts a supplied data binding (the exact
success condition of the corresponding bind_group_entries arm). -/
def dataMatches (resources : LoadedResources) : ShaderBinding → MaterialDataBinding → Bool
  | ShaderBinding.buffer _, MaterialDataBinding.buffer _ => true
  | ShaderBinding.buffer _, _ => false
  | ShaderBinding.texture _, d => textureDataOk resources d
  | ShaderBinding.storageTexture _ _, d => textureDataOk resources d

/-- Kind-level compatibility between a declared entry and a supplied data
binding, ignoring name resolvability: false exactly when the mismatch panic
(naming the material) fires with that data binding present. -/
def kindMatches : ShaderBinding → MaterialDataBinding → Bool
  | ShaderBinding.buffer _, MaterialDataBinding.buffer _ => true
  | ShaderBinding.buffer _, _ => false
  | _, MaterialDataBinding.buffer _ => false
  | _, _ => true

/-- Pipeline options passed to Shader::new (src/shader.rs): render options
carry the optional camera and lighting bind-group-layout sources (opaque
handles); compute options carry nothing. Color formats, depth format and the
instance-stream flag are carried for the render pipeline build. -/
inductive PipelineOptionsModel where
  | renderPipeline (out_color_formats : List TextureFormat) (depth_format : Option TextureFormat)
      (use_instances : Bool) (scene_camera : Option Nat) (scene_lighting : Option Nat)
  | computePipeline
deriving DecidableEq, Repr

/-- The three kinds of bind group layout (and bind group) the engine uses. -/
inductive BindSource where
  | camera
  | lighting
  | material
deriving DecidableEq, Repr

/-- The bind-group-layout order assembled by Shader::new (src/shader.rs lines
30-47): camera layout then lighting layout then the shader's own layout,
flattened over presence, where camera/lighting layouts are present only for
render options that carry them. -/
def shaderNewLayoutOrder (options : PipelineOptionsModel) : List BindSource :=
  let pair :=
    match options with
    | PipelineOptionsModel.renderPipeline _ _ _ scene_camera scene_lighting =>
      (scene_camera.map (fun _ => BindSource.camera), scene_lighting.map (fun _ => BindSource.lighting))
    | PipelineOptionsModel.computePipeline => (none, none)
  [pair.1, pair.2, some BindSource.material].filterMap id

/-- includes_camera as set by Shader::new: true exactly for render options
with a camera source. -/
def shaderNewIncludesCamera : PipelineOptionsModel → Bool
  | PipelineOptionsModel.renderPipeline _ _ _ scene_camera _ => scene_camera.isSome
  | PipelineOptionsModel.computePipeline => false

/-- includes_lighting as set by Shader::new: true exactly for render options
with a lighting source. -/
def shaderNewIncludesLighting : PipelineOptionsModel → Bool
  | PipelineOptionsModel.renderPipeline _ _ _ _ scene_lighting => scene_lighting.isSome
  | PipelineOptionsModel.computePipeline => false

/-- The set_bind_group calls issued per model by Engine::draw_scene
(src/engine.rs lines 875-885): a mutable index starts at 0; the camera bind
group is bound when the shader includes it, then the lighting bind group when
included, then the material bind group. -/
def drawSceneBindGroups (includes_camera includes_lighting : Bool) : List (Nat × BindSource) :=
  let index := 0
  let cameraPart := if includes_camera then [(index, BindSource.camera)] else []
  let index := if includes_camera then index + 1 else index
  let lightingPart := if includes_lighting then [(index, BindSource.lighting)] else []
  let index := if includes_lighting then index + 1 else index
  cameraPart ++ lightingPart ++ [(index, BindSource.material)]

/-- The set_bind_group calls issued by Engine::draw_quad (src/engine.rs lines
908-918), written as in the source: same index threading as the scene draw. -/
def drawQuadBindGroups (includes_camera includes_lighting : Bool) : List (Nat × BindSource) :=
  let index := 0
  let cameraPart := if includes_camera then [(index, BindSource.camera)] else []
  let index := if includes_camera then index + 1 else index
  let lightingPart := if includes_lighting then [(index, BindSource.lighting)] else []
  let index := if includes_lighting then index + 1 else index
  cameraPart ++ lightingPart ++ [(index, BindSource.material)]

/-- wgpu::SurfaceError. -/
inductive SurfaceError where
  | timeout
  | outdated
  | lost
  | outOfMemory
deriving DecidableEq, Repr

/-- What one call of Engine::draw_frame does with the render result: proceed
normally, resize to the given window size (retrying next frame), exit the
frame loop (ControlFlow::Exit), or log the error and skip the frame. -/
inductive FrameAction where
  | proceed
  | resizeRetry (width height : Nat)
  | exitLoop
  | logAndSkip (e : SurfaceError)
deriving DecidableEq, Repr

/-- The per-frame error match of Engine::draw_frame (src/engine.rs lines
649-657): Lost resizes with the current window inner size, OutOfMemory sets
ControlFlow::Exit, every other error is printed and the frame is skipped. -/
def drawFrameOutcome (renderResult : Except SurfaceError Unit) (windowWidth windowHeight : Nat) : FrameAction :=
  match renderResult with
  | Except.ok _ => FrameAction.proceed
  | Except.error SurfaceError.lost => FrameAction.resizeRetry windowWidth windowHeight
  | Except.error SurfaceError.outOfMemory => FrameAction.exitLoop
  | Except.error e => FrameAction.logAndSkip e

/-- wgpu::BlendComponent as used by the engine (REPLACE only). -/
inductive BlendComponent where
  | replace
deriving DecidableEq, Repr

/-- wgpu::BlendState. -/
structure BlendState where
  alpha : BlendComponent
  color : BlendComponent
deriving DecidableEq, Repr

/-- wgpu::ColorTargetState (write mask recorded as the all-channels flag). -/
structure ColorTargetState where
  format : TextureFormat
  blend : Option BlendState
  write_mask_all : Bool
deriving DecidableEq, Repr

/-- wgpu::DepthStencilState (stencil and bias keep their wgpu defaults in the
source and are omitted). -/
structure DepthStencilState where
  format : TextureFormat
  depth_write_enabled : Bool
  depth_compare : CompareFunction
deriving DecidableEq, Repr

/-- The data content of the wgpu::RenderPipelineDescriptor built by
create_render_pipeline (shader module, layout handle and vertex buffer
layouts are opaque GPU objects and omitted). -/
structure RenderPipelineDescr where
  targets : List ColorTargetState
  depth_stencil : Option DepthStencilState
deriving DecidableEq, Repr

/-- create_render_pipeline from src/shader.rs lines 153-212: each color
format becomes a REPLACE-blended full-write target, and the optional depth
format becomes a depth-stencil state with depth writes enabled and the Less
compare function. -/
def create_render_pipeline (color_formats : List TextureFormat)
    (depth_format : Option TextureFormat) : RenderPipelineDescr :=
  { targets := color_formats.map (fun format =>
      { format := format
        blend := some { alpha := BlendComponent.replace, color := BlendComponent.replace }
        write_mask_all := true })
    depth_stencil := depth_format.map (fun format =>
      { format := format
        depth_write_enabled := true
        depth_compare := CompareFunction.less }) }

/-- wgpu::SurfaceConfiguration, reduced to the fields the resize path touches
(width and height in pixels). -/
structure SurfaceConfiguration where
  width : Nat
  height : Nat
deriving DecidableEq, Repr

/-- winit::dpi::PhysicalSize of u32. -/
structure PhysicalSize where
  width : Nat
  height : Nat
deriving DecidableEq, Repr

/-- FrameTexture from src/frame_texture.rs: its wrapped GPU image is
characterized by its extent (width and height, always taken from the surface
configuration at creation); format, label and optional depth-compare function
are the remaining fields. -/
structure FrameTexture where
  width : Nat
  height : Nat
  format : TextureFormat
  label : String
  compare : Option CompareFunction
deriving DecidableEq, Repr

/-- FrameTexture::new from src/frame_texture.rs lines 11-48: the texture
extent comes from the configuration, the other fields are stored as given. -/
def FrameTexture.new (config : SurfaceConfiguration) (format : TextureFormat) (label : String)
    (compare : Option CompareFunction) : FrameTexture :=
  { width := config.width, height := config.height, format := format, label := label, compare := compare }

/-- FrameTexture::recreate from src/frame_texture.rs lines 50-52: replaces
only the wrapped texture with one created through FrameTexture::new at the
configuration size using the stored format, label and compare function. -/
def FrameTexture.recreate (self : FrameTexture) (config : SurfaceConfiguration) : FrameTexture :=
  let rebuilt := FrameTexture.new config self.format self.label self.compare
  { self with width := rebuilt.width, height := rebuilt.height }

/-- FrameTextures from src/frame_texture.rs lines 55-71: the fourteen
intermediate render targets. -/
structure FrameTextures where
  z_buffer : FrameTexture
  world_space_fragment_location : FrameTexture
  world_space_normal : FrameTexture
  world_space_eye_location : FrameTexture
  world_space_light_location : FrameTexture
  view_space_fragment_location : FrameTexture
  view_space_normal : FrameTexture
  view_space_eye_location : FrameTexture
  view_space_light_location : FrameTexture
  albedo_map : FrameTexture
  arm_map : FrameTexture
  normal_map : FrameTexture
  ssao_kernel_map : FrameTexture
  ssao_blurred_map : FrameTexture
deriving DecidableEq, Repr

/-- FrameTextures::recreate_all from src/frame_texture.rs lines 74-90:
recreates every field at the given configuration. -/
def FrameTextures.recreate_all (self : FrameTextures) (config : SurfaceConfiguration) : FrameTextures :=
  { z_buffer := self.z_buffer.recreate config
    world_space_fragment_location := self.world_space_fragment_location.recreate config
    world_space_normal := self.world_space_normal.recreate config
    world_space_eye_location := self.world_space_eye_location.recreate config
    world_space_light_location := self.world_space_light_location.recreate config
    view_space_fragment_location := self.view_space_fragment_location.recreate config
    view_space_normal := self.view_space_normal.recreate config
    view_space_eye_location := self.view_space_eye_location.recreate config
    view_space_light_location := self.view_space_light_location.recreate config
    albedo_map := self.albedo_map.recreate config
    arm_map := self.arm_map.recreate config
    normal_map := self.normal_map.recreate config
    ssao_kernel_map := self.ssao_kernel_map.recreate config
    ssao_blurred_map := self.ssao_blurred_map.recreate config }

/-- The fourteen frame textures as a list, in declaration order. -/
def FrameTextures.toList (self : FrameTextures) : List FrameTexture :=
  [self.z_buffer, self.world_space_fragment_location, self.world_space_normal,
   self.world_space_eye_location, self.world_space_light_location,
   self.view_space_fragment_location, self.view_space_normal,
   self.view_space_eye_location, self.view_space_light_location,
   self.albedo_map, self.arm_map, self.normal_map,
   self.ssao_kernel_map, self.ssao_blurred_map]

/-- Camera projection from src/camera.rs: both variants keep an aspect set to
width / height on resize; the aspect is represented by the (width, height)
pair it is computed from, avoiding floating point. Remaining numeric fields
(fovy, near, far, size) do not change on resize and are omitted. -/
inductive Projection where
  | perspective (aspect : Nat × Nat)
  | orthographic (aspect : Nat × Nat)
deriving DecidableEq, Repr

/-- Projection resize (src/camera.rs lines 187-189 and 214-216): both
variants set aspect to width / height. -/
def Projection.resize (self : Projection) (width height : Nat) : Projection :=
  match self with
  | Projection.perspective _ => Projection.perspective (width, height)
  | Projection.orthographic _ => Projection.orthographic (width, height)

/-- The engine state touched by Engine::resize: surface configuration, the
active camera projection, and the frame texture set. -/
structure EngineResizeState where
  surface_configuration : SurfaceConfiguration
  projection : Projection
  frame_textures : FrameTextures
deriving DecidableEq, Repr

/-- Engine::resize from src/engine.rs lines 580-593: only when both
dimensions are positive, the surface configuration takes the new size, the
surface is reconfigured (a GPU side effect), the active camera projection is
resized, and every frame texture is recreated at the new configuration;
otherwise nothing happens. -/
def Engine.resize (self : EngineResizeState) (new_size : PhysicalSize) : EngineResizeState :=
  if 0 < new_size.width && 0 < new_size.height then
    let config := { self.surface_configuration with width := new_size.width, height := new_size.height }
    { surface_configuration := config
      projection := self.projection.resize new_size.width new_size.height
      frame_textures := self.frame_textures.recreate_all config }
  else
    self

/-- A tobj material as consumed by Mesh::load (src/mesh.rs): the three
texture-name strings it reads. -/
structure ObjMaterial where
  diffuse_texture : String
  shininess_texture : String
  normal_texture : String
deriving DecidableEq, Repr

/-- The (map_albedo, map_arm, map_normal) triple computed by Mesh::load
(src/mesh.rs lines 110-120): with an associated material, each name is
wrapped in Some and then filtered with String::is_empty (keeping only empty
names); without one, all three are None. The outer Option models the
out-of-bounds panic of indexing obj_materials. -/
def meshTextureMaps (material_id : Option Nat) (obj_materials : List ObjMaterial) :
    Option (Option String × Option String × Option String) :=
  match material_id with
  | some index =>
    (obj_materials.get? index).map (fun material =>
      ((some material.diffuse_texture).filter String.isEmpty,
       (some material.shininess_texture).filter String.isEmpty,
       (some material.normal_texture).filter String.isEmpty))
  | none => some (none, none, none)

/-- Modelled from the spec: the intended texture-map semantics for Mesh::load
(the spec directs an implementer to treat a non-empty map name string as
present and not to preserve the inverted is_empty check in src/mesh.rs): each
optional map name is Some exactly when the source string is non-empty. -/
def meshTextureMapsIntended (material_id : Option Nat) (obj_materials : List ObjMaterial) :
    Option (Option String × Option String × Option String) :=
  match material_id with
  | some index =>
    (obj_materials.get? index).map (fun material =>
      ((some material.diffuse_texture).filter (fun s => !s.isEmpty),
       (some material.shininess_texture).filter (fun s => !s.isEmpty),
       (some material.normal_texture).filter (fun s => !s.isEmpty)))
  | none => some (none, none, none)

/-- Component from src/component.rs: Model, Light, Camera or Behavior; the
payloads are irrelevant to the traversal claims and modelled opaquely. -/
inductive Component where
  | model
  | light
  | camera
  | behavior
deriving DecidableEq, Repr

/-- Entity from src/entity.rs: name, enabled flag, components and children
(the numeric transform payload is irrelevant to the traversal claims and
omitted). -/
inductive Entity where
  | mk (name : String) (enabled : Bool) (components : List Component) (children : List Entity)

/-- Name field accessor for Entity. -/
def Entity.name : Entity → String
  | Entity.mk n _ _ _ => n

/-- Enabled field accessor for Entity. -/
def Entity.enabled : Entity → Bool
  | Entity.mk _ e _ _ => e

/-- Components field accessor for Entity. -/
def Entity.components : Entity → List Component
  | Entity.mk _ _ c _ => c

/-- Children field accessor for Entity. -/
def Entity.children : Entity → List Entity
  | Entity.mk _ _ _ c => c

mutual

/-- Number of entities in a subtree (termination measure for the iterator). -/
def Entity.size : Entity → Nat
  | Entity.mk _ _ _ children => 1 + sizeList children

/-- Total number of entities in the subtrees of a list of entities. -/
def sizeList : List Entity → Nat
  | [] => 0
  | e :: rest => Entity.size e + sizeList rest

end

/-- The run of the EntityIter iterator from src/entity.rs lines 182-196,
started from a given stack and collecting every yielded entity. The Rust
stack is a Vec popped from the back and extended with the children in order,
so the last child ends on top; here the list head is the stack top, so
popping takes the head and pushing the children in Vec order prepends the
reversed children list. -/
def entityIterList (stack : List Entity) : List Entity :=
  match stack with
  | [] => []
  | entry :: rest => entry :: entityIterList (entry.children.reverse ++ rest)
termination_by sizeList stack
decreasing_by
  simp_wf
  have happ : ∀ (a b : List Entity), sizeList (a ++ b) = sizeList a + sizeList b := by
    intro a b
    induction a with
    | nil => simp [sizeList]
    | cons x xs ih => simp [sizeList, ih]; omega
  have hrev : ∀ (a : List Entity), sizeList a.reverse = sizeList a := by
    intro a
    induction a with
    | nil => rfl
    | cons x xs ih =>
      rw [List.reverse_cons, happ]
      simp [sizeList]
      omega
  rw [happ, hrev]
  simp only [sizeList]
  have hpos : ∀ (x : Entity), sizeList x.children + 1 = Entity.size x := by
    intro x
    cases x with
    | mk n en comps ch => simp [Entity.size, Entity.children]; omega
  rw [← hpos e]
  omega

/-- Entity::iter from src/entity.rs lines 39-41 (run to completion): the
iterator starts with the entity itself as the only stack entry. -/
def Entity.iterList (self : Entity) : List Entity :=
  entityIterList [self]

/-- The entity C of the sample tree Root -> [A, B -> [C]]. -/
def entityC : Entity := Entity.mk "C" true [] []

/-- The entity B of the sample tree, with child C. -/
def entityB : Entity := Entity.mk "B" true [] [entityC]

/-- The entity A of the sample tree. -/
def entityA : Entity := Entity.mk "A" true [] []

/-- The root of the sample tree Root -> [A, B -> [C]]. -/
def entityRoot : Entity := Entity.mk "Root" true [] [entityA, entityB]

/-- A sample albedo texture registered in the sample resources. -/
def textureAlbedo : Texture := { texture := 1, view := 2, sampler := 3 }

/-- A sample ARM texture registered in the sample resources. -/
def textureArm : Texture := { texture := 4, view := 5, sampler := 6 }

/-- A sample shader declaring [Texture, Texture, Buffer] with the Default
binding descriptors of src/shader.rs. -/
def sampleShaderTTB : ShaderModel :=
  { name := "shader_ttb.wgsl"
    bind_group_layout := build_bind_group_layout_entries
      [ShaderBinding.texture ShaderBindingTexture.default,
       ShaderBinding.texture ShaderBindingTexture.default,
       ShaderBinding.buffer ShaderBindingBuffer.default]
    shader_bindings :=
      [ShaderBinding.texture ShaderBindingTexture.default,
       ShaderBinding.texture ShaderBindingTexture.default,
       ShaderBinding.buffer ShaderBindingBuffer.default]
    includes_camera := false
    includes_lighting := false }

/-- A sample shader declaring a single Buffer binding. -/
def sampleShaderB : ShaderModel :=
  { name := "shader_b.wgsl"
    bind_group_layout := build_bind_group_layout_entries [ShaderBinding.buffer ShaderBindingBuffer.default]
    shader_bindings := [ShaderBinding.buffer ShaderBindingBuffer.default]
    includes_camera := false
    includes_lighting := false }

/-- Sample loaded resources: the two sample shaders and the albedo and ARM
textures. -/
def sampleResources : LoadedResources :=
  { shaders := [("shader_ttb.wgsl", sampleShaderTTB), ("shader_b.wgsl", sampleShaderB)]
    textures := [("albedo", textureAlbedo), ("arm", textureArm)]
    materials := []
    meshes := [] }

/-- The correctly kinded data bindings for the [Texture, Texture, Buffer]
sample shader. -/
def sampleBindingsTTB : List MaterialDataBinding :=
  [MaterialDataBinding.textureName "albedo", MaterialDataBinding.textureName "arm",
   MaterialDataBinding.buffer 7]

/-- A sample frame texture used by the resize witness. -/
def sampleFrameTexture (label : String) (format : TextureFormat) (compare : Option CompareFunction) : FrameTexture :=
  { width := 800, height := 600, format := format, label := label, compare := compare }

/-- A sample frame texture set sized 800 x 600. -/
def sampleFrameTextures : FrameTextures :=
  { z_buffer := sampleFrameTexture "Z Buffer" TextureFormat.depth32Float (some CompareFunction.lessEqual)
    world_space_fragment_location := sampleFrameTexture "World Space Fragment Location" TextureFormat.rgba16Float none
    world_space_normal := sampleFrameTexture "World Space Normal" TextureFormat.rgba16Float none
    world_space_eye_location := sampleFrameTexture "World Space Eye Location" TextureFormat.rgba16Float none
    world_space_light_location := sampleFrameTexture "World Space Light Location" TextureFormat.rgba16Float none
    view_space_fragment_location := sampleFrameTexture "View Space Fragment Location" TextureFormat.rgba16Float none
    view_space_normal := sampleFrameTexture "View Space Normal" TextureFormat.rgba16Float none
    view_space_eye_location := sampleFrameTexture "View Space Eye Location" TextureFormat.rgba16Float none
    view_space_light_location := sampleFrameTexture "View Space Light Location" TextureFormat.rgba16Float none
    albedo_map := sampleFrameTexture "Albedo Map" TextureFormat.rgba8Unorm none
    arm_map := sampleFrameTexture "ARM Map" TextureFormat.rgba8Unorm none
    normal_map := sampleFrameTexture "Normal Map" TextureFormat.rgba16Float none
    ssao_kernel_map := sampleFrameTexture "SSAO Kernel Map" TextureFormat.rgba16Float none
    ssao_blurred_map := sampleFrameTexture "SSAO Blurred Map" TextureFormat.rgba16Float none }

/-- A sample engine state sized 800 x 600 used by the resize witness. -/
def sampleEngine : EngineResizeState :=
  { surface_configuration := { width := 800, height := 600 }
    projection := Projection.perspective (800, 600)
    frame_textures := sampleFrameTextures }

/-- A sample source material whose three texture-map names are non-empty. -/
def sampleObjMaterial : ObjMaterial :=
  { diffuse_texture := "albedo.png", shininess_texture := "arm.png", normal_texture := "normal.png" }

/-- A sample source material whose three texture-map names are empty. -/
def emptyObjMaterial : ObjMaterial :=
  { diffuse_texture := "", shininess_texture := "", normal_texture := "" }

/- Helper lemmas about the entity iterator. -/

theorem sizeList_append (a b : List Entity) : sizeList (a ++ b) = sizeList a + sizeList b := by
  induction a with
  | nil => simp [sizeList]
  | cons x xs ih => simp [sizeList, ih]; omega

theorem sizeList_reverse (a : List Entity) : sizeList a.reverse = sizeList a := by
  induction a with
  | nil => rfl
  | cons x xs ih =>
    rw [List.reverse_cons, sizeList_append]
    simp [sizeList]
    omega

theorem entity_size_eq (e : Entity) : Entity.size e = 1 + sizeList e.children := by
  cases e with
  | mk n en comps ch => simp [Entity.size, Entity.children]

theorem entityIterList_nil : entityIterList [] = [] := by
  simp [entityIterList]

theorem entityIterList_cons (e : Entity) (rest : List Entity) :
    entityIterList (e :: rest) = e :: entityIterList (e.children.reverse ++ rest) := by
  simp [entityIterList]

theorem entityIterList_append_of_le (n : Nat) :
    ∀ (l1 l2 : List Entity), sizeList l1 ≤ n →
      entityIterList (l1 ++ l2) = entityIterList l1 ++ entityIterList l2 := by
  induction n with
  | zero =>
    intro l1 l2 h
    cases l1 with
    | nil => simp [entityIterList_nil]
    | cons e t =>
      exfalso
      have := entity_size_eq e
      simp [sizeList] at h
      omega
  | succ n ih =>
    intro l1 l2 h
    cases l1 with
    | nil => simp [entityIterList_nil]
    | cons e t =>
      rw [List.cons_append, entityIterList_cons, entityIterList_cons]
      rw [← List.append_assoc]
      rw [ih (e.children.reverse ++ t) l2]
      · simp
      · rw [sizeList_append, sizeList_reverse]
        have := entity_size_eq e
        simp [sizeList] at h
        omega

theorem entityIterList_append (l1 l2 : List Entity) :
    entityIterList (l1 ++ l2) = entityIterList l1 ++ entityIterList l2 :=
  entityIterList_append_of_le (sizeList l1) l1 l2 (Nat.le_refl _)

theorem entityIterList_singleton (e : Entity) :
    entityIterList [e] = e :: entityIterList e.children.reverse := by
  rw [entityIterList_cons, List.append_nil]

theorem entityIterList_eq_flatten (l : List Entity) :
    entityIterList l = (l.map (fun e => entityIterList [e])).flatten := by
  induction l with
  | nil => simp [entityIterList_nil]
  | cons e t ih =>
    rw [entityIterList_cons, List.map_cons, List.flatten_cons, ← ih]
    rw [entityIterList_singleton]
    rw [entityIterList_append]
    simp

theorem sample_tree_traversal :
    entityRoot.iterList = [entityRoot, entityB, entityC, entityA] := by
  rw [Entity.iterList, entityIterList_singleton]
  rw [show entityRoot.children = [entityA, entityB] from rfl]
  rw [show ([entityA, entityB] : List Entity).reverse = [entityB, entityA] from rfl]
  rw [entityIterList_cons]
  rw [show entityB.children = [entityC] from rfl]
  rw [show (([entityC] : List Entity).reverse ++ [entityA]) = [entityC, entityA] from rfl]
  rw [entityIterList_cons]
  rw [show entityC.children = ([] : List Entity) from rfl]
  rw [show ((([] : List Entity)).reverse ++ [entityA]) = [entityA] from rfl]
  rw [entityIterList_cons]
  rw [show entityA.children = ([] : List Entity) from rfl]
  rw [show ((([] : List Entity)).reverse ++ ([] : List Entity)) = ([] : List Entity) from rfl]
  rw [entityIterList_nil]

/-- C5: for the entity tree Root -> [A, B -> [C]], the depth-first traversal
iterator Entity::iter yields exactly the set of the four entities (by their
distinct names), each exactly once, includes the starting node itself (it is
the first yield), and yields B before C. -/
theorem entity_iter_sample_tree_complete :
    ((entityRoot.iterList).map Entity.name).count "Root" = 1 ∧
    ((entityRoot.iterList).map Entity.name).count "A" = 1 ∧
    ((entityRoot.iterList).map Entity.name).count "B" = 1 ∧
    ((entityRoot.iterList).map Entity.name).count "C" = 1 ∧
    ((entityRoot.iterList).map Entity.name).length = 4 ∧
    (entityRoot.iterList).head? = some entityRoot ∧
    ((entityRoot.iterList).map Entity.name).indexOf "B" <
      ((entityRoot.iterList).map Entity.name).indexOf "C" := by
  rw [sample_tree_traversal]
  refine ⟨by decide, by decide, by decide, by decide, by decide, rfl, by decide⟩

/-- C10: Entity::iter yields the entity itself first, then the subtrees of
its children in reverse insertion order (the whole subtree of the last child
before the one of the previous child, and so on); on the sample tree
Root -> [A, B -> [C]] the yield order is Root, B, C, A. -/
theorem entity_iter_reverse_child_order :
    (∀ (e : Entity),
      e.iterList = e :: ((e.children.reverse.map (fun c => c.iterList)).flatten)) ∧
    (entityRoot.iterList).map Entity.name = ["Root", "B", "C", "A"] := by
  constructor
  · intro e
    rw [Entity.iterList, entityIterList_singleton, entityIterList_eq_flatten]
    simp [Entity.iterList]
  · rw [sample_tree_traversal]
    decide

/-- C3: at draw time, for both scene draws (Engine::draw_scene) and
full-screen quad blits (Engine::draw_quad), bind groups are bound in the
fixed order camera (only if includes_camera), lighting (only if
includes_lighting), then the material bind group, at consecutive indices
from 0 (List.enum pairs each bind source with its position); and Shader::new
fixes the two booleans from the pipeline options and assembles the pipeline
layout in the same order. -/
theorem draw_bind_group_order (options : PipelineOptionsModel) :
    drawSceneBindGroups (shaderNewIncludesCamera options) (shaderNewIncludesLighting options) =
      (shaderNewLayoutOrder options).enum ∧
    drawQuadBindGroups (shaderNewIncludesCamera options) (shaderNewIncludesLighting options) =
      (shaderNewLayoutOrder options).enum ∧
    (drawSceneBindGroups (shaderNewIncludesCamera options) (shaderNewIncludesLighting options)).map
      Prod.fst = List.range (shaderNewLayoutOrder options).length := by
  cases options with
  | renderPipeline cf df ui cam light =>
    cases cam <;> cases light <;> exact ⟨rfl, rfl, rfl⟩
  | computePipeline => exact ⟨rfl, rfl, rfl⟩

/-- C6: Engine::draw_frame maps the render result locally: surface Lost
resizes with the current window size, OutOfMemory exits the frame loop,
every other surface error (Timeout, Outdated) is only logged and the frame
skipped, and a successful render proceeds; the outcome type has no error
alternative, so no per-frame error propagates past the frame boundary. -/
theorem draw_frame_error_handling (w h : Nat) :
    drawFrameOutcome (Except.error SurfaceError.lost) w h = FrameAction.resizeRetry w h ∧
    drawFrameOutcome (Except.error SurfaceError.outOfMemory) w h = FrameAction.exitLoop ∧
    drawFrameOutcome (Except.error SurfaceError.timeout) w h =
      FrameAction.logAndSkip SurfaceError.timeout ∧
    drawFrameOutcome (Except.error SurfaceError.outdated) w h =
      FrameAction.logAndSkip SurfaceError.outdated ∧
    drawFrameOutcome (Except.ok ()) w h = FrameAction.proceed :=
  ⟨rfl, rfl, rfl, rfl, rfl⟩

/-- C7 counterexample: a render pipeline built with a depth format present
uses the Less compare function, not LessEqual as claimed. -/
theorem render_pipeline_depth_compare_not_less_equal :
    (create_render_pipeline [TextureFormat.bgra8UnormSrgb]
        (some TextureFormat.depth32Float)).depth_stencil.map DepthStencilState.depth_compare =
      some CompareFunction.less ∧
    ¬ ((create_render_pipeline [TextureFormat.bgra8UnormSrgb]
        (some TextureFormat.depth32Float)).depth_stencil.map DepthStencilState.depth_compare =
      some CompareFunction.lessEqual) := by
  exact ⟨rfl, by decide⟩

/-- C7 (amended): every render pipeline built with a depth format present
enables depth testing with depth writes and the Less comparison, and a
pipeline built with no depth format has no depth-stencil state. -/
theorem render_pipeline_depth_state (color_formats : List TextureFormat) (f : TextureFormat) :
    (create_render_pipeline color_formats (some f)).depth_stencil =
      some { format := f, depth_write_enabled := true, depth_compare := CompareFunction.less } ∧
    (create_render_pipeline color_formats none).depth_stencil = none :=
  ⟨rfl, rfl⟩

/-- C9: the code of Mesh::load keeps a texture-map name only when it is
EMPTY (filter String::is_empty), so a source material with the non-empty
names albedo.png / arm.png / normal.png yields None for all three maps and a
material with empty names yields Some of each empty string, while the
spec-intended semantics (non-empty means present) yields Some of each
non-empty name; meshes with no source material get None for all three. -/
theorem mesh_texture_maps_inverted :
    meshTextureMaps (some 0) [sampleObjMaterial] = some (none, none, none) ∧
    meshTextureMaps (some 0) [emptyObjMaterial] = some (some "", some "", some "") ∧
    meshTextureMapsIntended (some 0) [sampleObjMaterial] =
      some (some "albedo.png", some "arm.png", some "normal.png") ∧
    sampleObjMaterial.diffuse_texture.isEmpty = false ∧
    sampleObjMaterial.shininess_texture.isEmpty = false ∧
    sampleObjMaterial.normal_texture.isEmpty = false ∧
    meshTextureMaps none [sampleObjMaterial] = some (none, none, none) := by
  refine ⟨rfl, rfl, rfl, rfl, rfl, rfl, rfl⟩

/- Helper lemma for the bind-group-layout slot numbering. -/

theorem buildBindGroupLayoutEntriesAux_bindings (bs : List ShaderBinding) :
    ∀ (i : Nat), (buildBindGroupLayoutEntriesAux bs i).map BindGroupLayoutEntry.binding =
      List.range' i ((bs.map slotSize).sum) := by
  induction bs with
  | nil => intro i; rfl
  | cons b rest ih =>
    intro i
    cases b with
    | buffer buf =>
      simp only [buildBindGroupLayoutEntriesAux, List.map_cons, List.map, slotSize, List.sum_cons]
      rw [ih (i + 1)]
      rw [Nat.add_comm 1 ((rest.map slotSize).sum)]
      rw [List.range'_succ]
    | texture tex =>
      simp only [buildBindGroupLayoutEntriesAux, List.map_cons, List.map, slotSize, List.sum_cons]
      rw [ih (i + 2)]
      rw [show (2 + (rest.map slotSize).sum) = ((rest.map slotSize).sum + 1) + 1 by omega]
      rw [List.range'_succ, List.range'_succ]
    | storageTexture tex fmt =>
      simp only [buildBindGroupLayoutEntriesAux, List.map_cons, List.map, slotSize, List.sum_cons]
      rw [ih (i + 1)]
      rw [Nat.add_comm 1 ((rest.map slotSize).sum)]
      rw [List.range'_succ]

/-- C1: for every ordered binding list, the bind group layout built by
Shader construction assigns binding slot numbers sequentially from 0, each
Buffer entry consuming 1 slot, each Texture entry 2 (texture view then its
sampler) and each StorageTexture entry 1; and the Material built against the
sample shader declaring [Texture, Texture, Buffer] with correctly kinded
bindings has a bind group of exactly 5 entries at slots 0, 1, 2, 3, 4. -/
theorem binding_slots_sequential :
    (∀ (bindings : List ShaderBinding),
      (build_bind_group_layout_entries bindings).map BindGroupLayoutEntry.binding =
        List.range ((bindings.map slotSize).sum)) ∧
    (Material.new "sample.material" "shader_ttb.wgsl" sampleBindingsTTB sampleResources).map
      (fun mt => mt.bind_group.map BindGroupEntry.binding) = Except.ok [0, 1, 2, 3, 4] ∧
    (Material.new "sample.material" "shader_ttb.wgsl" sampleBindingsTTB sampleResources).map
      (fun mt => mt.bind_group.length) = Except.ok 5 := by
  refine ⟨?_, rfl, rfl⟩
  intro bindings
  rw [build_bind_group_layout_entries, buildBindGroupLayoutEntriesAux_bindings bindings 0,
    List.range_eq_range']

/- Helper lemmas for the IndexMap model. -/

theorem imGetIndexOf_isSome_iff_any {K V : Type} [DecidableEq K] (m : List (K × V)) (k : K) :
    (imGetIndexOf m k).isSome = true ↔ m.any (fun p => decide (p.1 = k)) = true := by
  induction m with
  | nil => simp [imGetIndexOf]
  | cons p rest ih =>
    by_cases hp : p.1 = k <;> simp [imGetIndexOf, hp, ih]

theorem imGetIndexOf_overwrite {K V : Type} [DecidableEq K] (m : List (K × V)) (k' : K) (v' : V)
    (k : K) :
    imGetIndexOf (m.map (fun p => if p.1 = k' then (k', v') else p)) k = imGetIndexOf m k := by
  induction m with
  | nil => rfl
  | cons p rest ih =>
    by_cases hp : p.1 = k' <;> simp [imGetIndexOf, hp, ih]

theorem imGet_overwrite {K V : Type} [DecidableEq K] (m : List (K × V)) (k' : K) (v' : V) :
    m.any (fun p => decide (p.1 = k')) = true →
    imGet (m.map (fun p => if p.1 = k' then (k', v') else p)) k' = some v' := by
  induction m with
  | nil => intro h; simp at h
  | cons p rest ih =>
    intro h
    by_cases hp : p.1 = k'
    · simp [imGet, hp]
    · have h2 : rest.any (fun p => decide (p.1 = k')) = true := by
        rw [List.any_cons, decide_eq_false hp, Bool.false_or] at h
        exact h
      simp only [List.map_cons]
      rw [if_neg hp]
      simp only [imGet]
      rw [if_neg hp]
      exact ih h2

theorem imGetIndexOf_append_of_isSome {K V : Type} [DecidableEq K] (m l : List (K × V)) (k : K) :
    (imGetIndexOf m k).isSome = true → imGetIndexOf (m ++ l) k = imGetIndexOf m k := by
  induction m with
  | nil => intro h; simp [imGetIndexOf] at h
  | cons p rest ih =>
    intro h
    by_cases hp : p.1 = k
    · simp [imGetIndexOf, hp]
    · simp [imGetIndexOf, hp] at h
      simp [imGetIndexOf, hp, ih h]

/-- C4: for every key already present in a ResourceTable map (as in the
shaders/textures/materials/meshes IndexMaps of LoadedResources), the stable
index returned by get_index_of is unchanged by any later insert (of another
key or an overwrite of any existing key), and inserting an already-present
key overwrites its value in place: no key changes its index, the value is
replaced, and the length stays the same. -/
theorem resource_index_stable {K V : Type} [DecidableEq K] (m : List (K × V)) (k k' : K)
    (v' : V) :
    ((imGetIndexOf m k).isSome = true →
      imGetIndexOf (imInsert m k' v') k = imGetIndexOf m k) ∧
    ((imGetIndexOf m k').isSome = true →
      (∀ k2 : K, imGetIndexOf (imInsert m k' v') k2 = imGetIndexOf m k2) ∧
      imGet (imInsert m k' v') k' = some v' ∧
      (imInsert m k' v').length = m.length) := by
  by_cases hany : m.any (fun p => decide (p.1 = k')) = true
  · constructor
    · intro _
      rw [imInsert, if_pos hany]
      exact imGetIndexOf_overwrite m k' v' k
    · intro _
      rw [imInsert, if_pos hany]
      exact ⟨fun k2 => imGetIndexOf_overwrite m k' v' k2, imGet_overwrite m k' v' hany,
        List.length_map _ _⟩
  · constructor
    · intro h
      rw [imInsert, if_neg hany]
      exact imGetIndexOf_append_of_isSome m [(k', v')] k h
    · intro h
      exact absurd ((imGetIndexOf_isSome_iff_any m k').mp h) hany

/-- Witness for C4: concrete applications of resource_index_stable, once for
a later insertion of a fresh key and once for an overwrite of an existing
key. -/
theorem resource_index_stable_witness :
    imGetIndexOf (imInsert [("albedo", (10 : Nat)), ("arm", 20)] "normal" 30) "albedo" =
      imGetIndexOf [("albedo", (10 : Nat)), ("arm", 20)] "albedo" ∧
    imGetIndexOf (imInsert [("albedo", (10 : Nat)), ("arm", 20)] "albedo" 99) "arm" =
      imGetIndexOf [("albedo", (10 : Nat)), ("arm", 20)] "arm" ∧
    imGet (imInsert [("albedo", (10 : Nat)), ("arm", 20)] "albedo" 99) "albedo" = some 99 ∧
    (imInsert [("albedo", (10 : Nat)), ("arm", 20)] "albedo" 99).length = 2 :=
  ⟨(resource_index_stable [("albedo", (10 : Nat)), ("arm", 20)] "albedo" "normal" 30).1
      (by decide),
   ((resource_index_stable [("albedo", (10 : Nat)), ("arm", 20)] "arm" "albedo" 99).2
      (by decide)).1 "arm",
   ((resource_index_stable [("albedo", (10 : Nat)), ("arm", 20)] "arm" "albedo" 99).2
      (by decide)).2.1,
   ((resource_index_stable [("albedo", (10 : Nat)), ("arm", 20)] "arm" "albedo" 99).2
      (by decide)).2.2⟩

/-- C8: Engine::resize with a zero width or height is a no-op (surface
configuration, active camera projection and every frame texture are left
unchanged); with both dimensions positive, every frame texture is recreated
at the new resolution with its format, label and compare function
preserved. -/
theorem resize_zero_noop_positive_recreates :
    (∀ (e : EngineResizeState) (sz : PhysicalSize),
      sz.width = 0 ∨ sz.height = 0 → Engine.resize e sz = e) ∧
    (∀ (e : EngineResizeState) (sz : PhysicalSize),
      0 < sz.width → 0 < sz.height →
      (Engine.resize e sz).frame_textures.toList =
        e.frame_textures.toList.map (fun ft =>
          { width := sz.width, height := sz.height, format := ft.format, label := ft.label,
            compare := ft.compare })) := by
  constructor
  · intro e sz h
    rcases h with h | h <;> simp [Engine.resize, h]
  · intro e sz hw hh
    rw [Engine.resize, if_pos (by simp [hw, hh])]
    simp [FrameTextures.recreate_all, FrameTextures.toList, FrameTexture.recreate,
      FrameTexture.new]

/-- Witness for C8: the sample 800 x 600 engine is unchanged by a resize to
width 0, and a resize to 1024 x 768 recreates each of its frame textures at
1024 x 768 with format, label and compare preserved. -/
theorem resize_zero_noop_positive_recreates_witness :
    Engine.resize sampleEngine { width := 0, height := 720 } = sampleEngine ∧
    (Engine.resize sampleEngine { width := 1024, height := 768 }).frame_textures.toList =
      sampleEngine.frame_textures.toList.map (fun ft =>
        { width := 1024, height := 768, format := ft.format, label := ft.label,
          compare := ft.compare }) :=
  ⟨resize_zero_noop_positive_recreates.1 sampleEngine { width := 0, height := 720 }
      (Or.inl rfl),
   resize_zero_noop_positive_recreates.2 sampleEngine { width := 1024, height := 768 }
      (by decide) (by decide)⟩

/- Helper lemmas for material construction. -/

theorem exceptMap_isOk {e a b : Type} (f : a → b) (x : Except e a) :
    (x.map f).isOk = x.isOk := by
  cases x <;> rfl

theorem exceptMap_error {e a b : Type} (f : a → b) (x : Except e a) (err : e) :
    x = Except.error err → x.map f = Except.error err := by
  intro h
  rw [h]
  rfl

theorem imGetIndexOf_isSome_of_imGet {K V : Type} [DecidableEq K] (m : List (K × V)) (k : K)
    (v : V) : imGet m k = some v → ∃ i, imGetIndexOf m k = some i := by
  induction m with
  | nil => intro h; simp [imGet] at h
  | cons p rest ih =>
    intro h
    by_cases hp : p.1 = k
    · exact ⟨0, by simp [imGetIndexOf, hp]⟩
    · rw [imGet, if_neg hp] at h
      obtain ⟨i, hi⟩ := ih h
      exact ⟨i + 1, by simp [imGetIndexOf, hp, hi]⟩

theorem bindGroupEntriesAux_ok (mName : String) (data : List MaterialDataBinding)
    (res : LoadedResources) :
    ∀ (bs : List ShaderBinding) (k bi : Nat),
      (∀ j (h : j < bs.length),
        (data.get? (k + j)).any (dataMatches res (bs.get ⟨j, h⟩)) = true) →
      (bindGroupEntriesAux mName data res bs k bi).isOk = true := by
  intro bs
  induction bs with
  | nil => intro k bi _; rfl
  | cons b rest ih =>
    intro k bi hcond
    have h0 : (data.get? k).any (dataMatches res b) = true := by
      have := hcond 0 (by simp)
      simpa using this
    have hrest : ∀ j (h : j < rest.length),
        (data.get? (k + 1 + j)).any (dataMatches res (rest.get ⟨j, h⟩)) = true := by
      intro j hj
      have := hcond (j + 1) (by simpa using Nat.succ_lt_succ hj)
      have heq : k + (j + 1) = k + 1 + j := by omega
      rw [heq] at this
      simpa using this
    cases hd : data.get? k with
    | none => rw [hd] at h0; simp [Option.any] at h0
    | some d =>
      rw [hd] at h0
      have hmatch : dataMatches res b d = true := by simpa [Option.any] using h0
      cases b with
      | buffer bb =>
        cases d with
        | buffer dbb =>
          simp only [bindGroupEntriesAux, hd, exceptMap_isOk]
          exact ih (k + 1) (bi + 1) hrest
        | texture t => simp [dataMatches] at hmatch
        | sampleableDepthTexture t s => simp [dataMatches] at hmatch
        | storageTexture t v => simp [dataMatches] at hmatch
        | textureName n => simp [dataMatches] at hmatch
      | texture tt =>
        cases d with
        | buffer dbb => simp [dataMatches, textureDataOk] at hmatch
        | texture t =>
          simp only [bindGroupEntriesAux, hd, exceptMap_isOk]
          exact ih (k + 1) (bi + 2) hrest
        | sampleableDepthTexture t s =>
          simp only [bindGroupEntriesAux, hd, exceptMap_isOk]
          exact ih (k + 1) (bi + 2) hrest
        | storageTexture t v =>
          simp only [bindGroupEntriesAux, hd, exceptMap_isOk]
          exact ih (k + 1) (bi + 2) hrest
        | textureName n =>
          have hsome : (imGet res.textures n).isSome = true := by
            simpa [dataMatches, textureDataOk] using hmatch
          cases hn : imGet res.textures n with
          | none => rw [hn] at hsome; simp at hsome
          | some tex =>
            simp only [bindGroupEntriesAux, hd, hn, exceptMap_isOk]
            exact ih (k + 1) (bi + 2) hrest
      | storageTexture tt fmt =>
        cases d with
        | buffer dbb => simp [dataMatches, textureDataOk] at hmatch
        | texture t =>
          simp only [bindGroupEntriesAux, hd, exceptMap_isOk]
          exact ih (k + 1) (bi + 1) hrest
        | sampleableDepthTexture t s =>
          simp only [bindGroupEntriesAux, hd, exceptMap_isOk]
          exact ih (k + 1) (bi + 1) hrest
        | storageTexture t v =>
          simp only [bindGroupEntriesAux, hd, exceptMap_isOk]
          exact ih (k + 1) (bi + 1) hrest
        | textureName n =>
          have hsome : (imGet res.textures n).isSome = true := by
            simpa [dataMatches, textureDataOk] using hmatch
          cases hn : imGet res.textures n with
          | none => rw [hn] at hsome; simp at hsome
          | some tex =>
            simp only [bindGroupEntriesAux, hd, hn, exceptMap_isOk]
            exact ih (k + 1) (bi + 1) hrest

theorem bindGroupEntriesAux_short (mName : String) (data : List MaterialDataBinding)
    (res : LoadedResources) :
    ∀ (bs : List ShaderBinding) (k bi : Nat), k ≤ data.length →
      data.length < k + bs.length →
      (∀ j (h : j < bs.length), ∀ d, data.get? (k + j) = some d →
        dataMatches res (bs.get ⟨j, h⟩) d = true) →
      bindGroupEntriesAux mName data res bs k bi =
        Except.error (MaterialError.bindingMismatch mName) := by
  intro bs
  induction bs with
  | nil =>
    intro k bi hk hlen _
    exfalso
    simp at hlen
    omega
  | cons b rest ih =>
    intro k bi hk hlen hcond
    have hrest : ∀ j (h : j < rest.length), ∀ d, data.get? (k + 1 + j) = some d →
        dataMatches res (rest.get ⟨j, h⟩) d = true := by
      intro j hj d hd
      have heq : k + 1 + j = k + (j + 1) := by omega
      rw [heq] at hd
      have := hcond (j + 1) (by simpa using Nat.succ_lt_succ hj) d hd
      simpa using this
    cases hd : data.get? k with
    | none =>
      cases b with
      | buffer bb => simp only [bindGroupEntriesAux, hd]
      | texture tt => simp only [bindGroupEntriesAux, hd]
      | storageTexture tt fmt => simp only [bindGroupEntriesAux, hd]
    | some d =>
      have hklt : k < data.length := by
        by_contra hge
        rw [List.get?_eq_none.mpr (by omega)] at hd
        exact Option.noConfusion hd
      have hk1 : k + 1 ≤ data.length := hklt
      have hlen1 : data.length < k + 1 + rest.length := by
        simp [List.length_cons] at hlen
        omega
      have hmatch : dataMatches res b d = true := by
        have := hcond 0 (by simp) d (by simpa using hd)
        simpa using this
      cases b with
      | buffer bb =>
        cases d with
        | buffer dbb =>
          simp only [bindGroupEntriesAux, hd]
          rw [ih (k + 1) (bi + 1) hk1 hlen1 hrest]
          rfl
        | texture t => simp [dataMatches] at hmatch
        | sampleableDepthTexture t s => simp [dataMatches] at hmatch
        | storageTexture t v => simp [dataMatches] at hmatch
        | textureName n => simp [dataMatches] at hmatch
      | texture tt =>
        cases d with
        | buffer dbb => simp [dataMatches, textureDataOk] at hmatch
        | texture t =>
          simp only [bindGroupEntriesAux, hd]
          rw [ih (k + 1) (bi + 2) hk1 hlen1 hrest]
          rfl
        | sampleableDepthTexture t s =>
          simp only [bindGroupEntriesAux, hd]
          rw [ih (k + 1) (bi + 2) hk1 hlen1 hrest]
          rfl
        | storageTexture t v =>
          simp only [bindGroupEntriesAux, hd]
          rw [ih (k + 1) (bi + 2) hk1 hlen1 hrest]
          rfl
        | textureName n =>
          have hsome : (imGet res.textures n).isSome = true := by
            simpa [dataMatches, textureDataOk] using hmatch
          cases hn : imGet res.textures n with
          | none => rw [hn] at hsome; simp at hsome
          | some tex =>
            simp only [bindGroupEntriesAux, hd, hn]
            rw [ih (k + 1) (bi + 2) hk1 hlen1 hrest]
            rfl
      | storageTexture tt fmt =>
        cases d with
        | buffer dbb => simp [dataMatches, textureDataOk] at hmatch
        | texture t =>
          simp only [bindGroupEntriesAux, hd]
          rw [ih (k + 1) (bi + 1) hk1 hlen1 hrest]
          rfl
        | sampleableDepthTexture t s =>
          simp only [bindGroupEntriesAux, hd]
          rw [ih (k + 1) (bi + 1) hk1 hlen1 hrest]
          rfl
        | storageTexture t v =>
          simp only [bindGroupEntriesAux, hd]
          rw [ih (k + 1) (bi + 1) hk1 hlen1 hrest]
          rfl
        | textureName n =>
          have hsome : (imGet res.textures n).isSome = true := by
            simpa [dataMatches, textureDataOk] using hmatch
          cases hn : imGet res.textures n with
          | none => rw [hn] at hsome; simp at hsome
          | some tex =>
            simp only [bindGroupEntriesAux, hd, hn]
            rw [ih (k + 1) (bi + 1) hk1 hlen1 hrest]
            rfl

theorem bindGroupEntriesAux_kind_mismatch (mName : String) (data : List MaterialDataBinding)
    (res : LoadedResources) :
    ∀ (bs : List ShaderBinding) (k bi i : Nat) (h : i < bs.length) (d : MaterialDataBinding),
      data.get? (k + i) = some d →
      kindMatches (bs.get ⟨i, h⟩) d = false →
      (∀ j (hj : j < i),
        (data.get? (k + j)).any (dataMatches res (bs.get ⟨j, Nat.lt_trans hj h⟩)) = true) →
      bindGroupEntriesAux mName data res bs k bi =
        Except.error (MaterialError.bindingMismatch mName) := by
  intro bs
  induction bs with
  | nil =>
    intro k bi i h
    exact absurd h (by simp)
  | cons b rest ih =>
    intro k bi i h d hd hkm hpreA
    cases i with
    | zero =>
      rw [Nat.add_zero] at hd
      have hb : ((b :: rest).get ⟨0, h⟩) = b := rfl
      rw [hb] at hkm
      cases b with
      | buffer bb =>
        cases d with
        | buffer dbb => simp [kindMatches] at hkm
        | texture t => simp only [bindGroupEntriesAux, hd]
        | sampleableDepthTexture t s => simp only [bindGroupEntriesAux, hd]
        | storageTexture t v => simp only [bindGroupEntriesAux, hd]
        | textureName n => simp only [bindGroupEntriesAux, hd]
      | texture tt =>
        cases d with
        | buffer dbb => simp only [bindGroupEntriesAux, hd]
        | texture t => simp [kindMatches] at hkm
        | sampleableDepthTexture t s => simp [kindMatches] at hkm
        | storageTexture t v => simp [kindMatches] at hkm
        | textureName n => simp [kindMatches] at hkm
      | storageTexture tt fmt =>
        cases d with
        | buffer dbb => simp only [bindGroupEntriesAux, hd]
        | texture t => simp [kindMatches] at hkm
        | sampleableDepthTexture t s => simp [kindMatches] at hkm
        | storageTexture t v => simp [kindMatches] at hkm
        | textureName n => simp [kindMatches] at hkm
    | succ i2 =>
      have hi2 : i2 < rest.length := by simpa using Nat.lt_of_succ_lt_succ h
      have h0 : (data.get? k).any (dataMatches res b) = true := by
        have := hpreA 0 (Nat.succ_pos i2)
        simpa using this
      have hd2 : data.get? (k + 1 + i2) = some d := by
        have heq : k + (i2 + 1) = k + 1 + i2 := by omega
        rw [heq] at hd
        exact hd
      have hkm2 : kindMatches (rest.get ⟨i2, hi2⟩) d = false := by
        have hb : ((b :: rest).get ⟨i2 + 1, h⟩) = rest.get ⟨i2, hi2⟩ := by
          simp
        rw [hb] at hkm
        exact hkm
      have hpreB : ∀ j (hj : j < i2),
          (data.get? (k + 1 + j)).any (dataMatches res (rest.get ⟨j, Nat.lt_trans hj hi2⟩)) = true := by
        intro j hj
        have := hpreA (j + 1) (Nat.succ_lt_succ hj)
        have heq : k + (j + 1) = k + 1 + j := by omega
        rw [heq] at this
        simpa using this
      cases hdk : data.get? k with
      | none => rw [hdk] at h0; simp [Option.any] at h0
      | some dk =>
        rw [hdk] at h0
        have hmatch : dataMatches res b dk = true := by simpa [Option.any] using h0
        cases b with
        | buffer bb =>
          cases dk with
          | buffer dbb =>
            simp only [bindGroupEntriesAux, hdk]
            rw [ih (k + 1) (bi + 1) i2 hi2 d hd2 hkm2 hpreB]
            rfl
          | texture t => simp [dataMatches] at hmatch
          | sampleableDepthTexture t s => simp [dataMatches] at hmatch
          | storageTexture t v => simp [dataMatches] at hmatch
          | textureName n => simp [dataMatches] at hmatch
        | texture tt =>
          cases dk with
          | buffer dbb => simp [dataMatches, textureDataOk] at hmatch
          | texture t =>
            simp only [bindGroupEntriesAux, hdk]
            rw [ih (k + 1) (bi + 2) i2 hi2 d hd2 hkm2 hpreB]
            rfl
          | sampleableDepthTexture t s =>
            simp only [bindGroupEntriesAux, hdk]
            rw [ih (k + 1) (bi + 2) i2 hi2 d hd2 hkm2 hpreB]
            rfl
          | storageTexture t v =>
            simp only [bindGroupEntriesAux, hdk]
            rw [ih (k + 1) (bi + 2) i2 hi2 d hd2 hkm2 hpreB]
            rfl
          | textureName n =>
            have hsome : (imGet res.textures n).isSome = true := by
              simpa [dataMatches, textureDataOk] using hmatch
            cases hn : imGet res.textures n with
            | none => rw [hn] at hsome; simp at hsome
            | some tex =>
              simp only [bindGroupEntriesAux, hdk, hn]
              rw [ih (k + 1) (bi + 2) i2 hi2 d hd2 hkm2 hpreB]
              rfl
        | storageTexture tt fmt =>
          cases dk with
          | buffer dbb => simp [dataMatches, textureDataOk] at hmatch
          | texture t =>
            simp only [bindGroupEntriesAux, hdk]
            rw [ih (k + 1) (bi + 1) i2 hi2 d hd2 hkm2 hpreB]
            rfl
          | sampleableDepthTexture t s =>
            simp only [bindGroupEntriesAux, hdk]
            rw [ih (k + 1) (bi + 1) i2 hi2 d hd2 hkm2 hpreB]
            rfl
          | storageTexture t v =>
            simp only [bindGroupEntriesAux, hdk]
            rw [ih (k + 1) (bi + 1) i2 hi2 d hd2 hkm2 hpreB]
            rfl
          | textureName n =>
            have hsome : (imGet res.textures n).isSome = true := by
              simpa [dataMatches, textureDataOk] using hmatch
            cases hn : imGet res.textures n with
            | none => rw [hn] at hsome; simp at hsome
            | some tex =>
              simp only [bindGroupEntriesAux, hdk, hn]
              rw [ih (k + 1) (bi + 1) i2 hi2 d hd2 hkm2 hpreB]
              rfl

/-- C2 counterexample: the claim says a supplied data-binding list whose
length differs from the declared entry count must fail construction, but a
Material built against the one-Buffer sample shader with TWO supplied buffer
bindings succeeds: bind_group_entries only reads data_bindings.get(index)
for declared indices and never checks for extras. -/
theorem material_extra_bindings_accepted :
    (Material.new "extra.material" "shader_b.wgsl"
        [MaterialDataBinding.buffer 0, MaterialDataBinding.buffer 1] sampleResources).isOk
      = true ∧
    sampleShaderB.shader_bindings.length = 1 ∧
    ¬ ([MaterialDataBinding.buffer 0, MaterialDataBinding.buffer 1].length =
        sampleShaderB.shader_bindings.length) := by
  refine ⟨rfl, rfl, by decide⟩

/-- C2 (amended): for a Shader with N declared ShaderBindingLayout entries,
supplying FEWER than N data bindings, or a positional kind mismatch within
the declared entries, fails Material construction with the error naming the
offending material; supplying bindings whose first N positions are correctly
kinded (and name-resolvable) succeeds — extra bindings beyond N are ignored
rather than rejected. -/
theorem material_binding_arity (res : LoadedResources) (mName sName : String)
    (shader : ShaderModel) (data : List MaterialDataBinding)
    (hs : imGet res.shaders sName = some shader) :
    ((∀ j (h : j < shader.shader_bindings.length),
        (data.get? j).any (dataMatches res (shader.shader_bindings.get ⟨j, h⟩)) = true) →
      (Material.new mName sName data res).isOk = true) ∧
    (data.length < shader.shader_bindings.length →
      (∀ j (h : j < shader.shader_bindings.length), ∀ d, data.get? j = some d →
        dataMatches res (shader.shader_bindings.get ⟨j, h⟩) d = true) →
      Material.new mName sName data res =
        Except.error (MaterialError.bindingMismatch mName)) ∧
    (∀ i (h : i < shader.shader_bindings.length) (d : MaterialDataBinding),
      data.get? i = some d →
      kindMatches (shader.shader_bindings.get ⟨i, h⟩) d = false →
      (∀ j (hj : j < i),
        (data.get? j).any
          (dataMatches res (shader.shader_bindings.get ⟨j, Nat.lt_trans hj h⟩)) = true) →
      Material.new mName sName data res =
        Except.error (MaterialError.bindingMismatch mName)) := by
  obtain ⟨idx, hidx⟩ := imGetIndexOf_isSome_of_imGet res.shaders sName shader hs
  refine ⟨?_, ?_, ?_⟩
  · intro hcond
    simp only [Material.new, hs, hidx, exceptMap_isOk]
    apply bindGroupEntriesAux_ok mName data res shader.shader_bindings 0 0
    intro j hj
    rw [Nat.zero_add]
    exact hcond j hj
  · intro hlen hcond
    simp only [Material.new, hs, hidx]
    apply exceptMap_error
    apply bindGroupEntriesAux_short mName data res shader.shader_bindings 0 0 (Nat.zero_le _)
    · simpa using hlen
    · intro j hj d hd
      rw [Nat.zero_add] at hd
      exact hcond j hj d hd
  · intro i h d hd hkm hpreA
    simp only [Material.new, hs, hidx]
    apply exceptMap_error
    apply bindGroupEntriesAux_kind_mismatch mName data res shader.shader_bindings 0 0 i h d
      (by rw [Nat.zero_add]; exact hd) hkm
    intro j hj
    rw [Nat.zero_add]
    exact hpreA j hj

/-- Witness for C2 (amended): against the [Texture, Texture, Buffer] sample
shader, construction succeeds with the correctly kinded three bindings, fails
naming the material with only one supplied binding, and fails naming the
material with a Buffer supplied where the first Texture entry is declared. -/
theorem material_binding_arity_witness :
    (Material.new "ok.material" "shader_ttb.wgsl" sampleBindingsTTB sampleResources).isOk
      = true ∧
    Material.new "short.material" "shader_ttb.wgsl" [MaterialDataBinding.textureName "albedo"]
        sampleResources = Except.error (MaterialError.bindingMismatch "short.material") ∧
    Material.new "mismatch.material" "shader_ttb.wgsl" [MaterialDataBinding.buffer 5]
        sampleResources = Except.error (MaterialError.bindingMismatch "mismatch.material") :=
  ⟨(material_binding_arity sampleResources "ok.material" "shader_ttb.wgsl" sampleShaderTTB
      sampleBindingsTTB rfl).1 (by decide),
   (material_binding_arity sampleResources "short.material" "shader_ttb.wgsl" sampleShaderTTB
      [MaterialDataBinding.textureName "albedo"] rfl).2.1 (by decide)
      (by
        intro j h d hd
        cases j with
        | zero =>
          cases hd
          rfl
        | succ j2 => simp [List.get?] at hd),
   (material_binding_arity sampleResources "mismatch.material" "shader_ttb.wgsl" sampleShaderTTB
      [MaterialDataBinding.buffer 5] rfl).2.2 0 (by decide) (MaterialDataBinding.buffer 5) rfl
      rfl (fun j hj => absurd hj (Nat.not_lt_zero j))⟩
